import Mathlib

/-!
# Verification of the aircraft-instance lifecycle service

A shallow embedding of the `reaport/aircraft` service: the capacity-bounded
resource record (`models/aircraft_instance.py`), the dual-key Redis store
(`services/aircraft_service.py`), the retrying gateway client
(`gateways/base.py`) and the landing/takeoff routes (`routers/aircraft.py`),
together with theorems about the behaviour of those operations.

The Redis backend is modelled as three association lists, one per key
namespace used by the service (`flight:{flight_id}`,
`aircraft_to_flight:{aircraft_id}`, and the set `flights:all`); the prefixes
never collide, so the separation is faithful.  Randomness
(`random.choice`, `random.randint`) is modelled by passing the drawn values
as explicit parameters; the contract of `random.randint(0, cap)` (the result
lies in `[0, cap]`) appears as a hypothesis where a theorem depends on it.
Python `int` is modelled as `Int`.
-/

set_option maxRecDepth 4000

/-! ## Key/value backend primitives (Redis `get` / `set` / `delete`, and
set membership `sadd` / `srem`) -/

def KV.get {α : Type} : List (String × α) → String → Option α
  | [], _ => none
  | p :: rest, k => if p.1 = k then some p.2 else KV.get rest k

def KV.set {α : Type} : List (String × α) → String → α → List (String × α)
  | [], k, v => [(k, v)]
  | p :: rest, k, v => if p.1 = k then (k, v) :: rest else p :: KV.set rest k v

/-- Redis `DELETE`: removes the key and returns how many entries were removed. -/
def KV.del {α : Type} : List (String × α) → String → Nat × List (String × α)
  | [], _ => (0, [])
  | p :: rest, k =>
    if p.1 = k then ((KV.del rest k).1 + 1, (KV.del rest k).2)
    else ((KV.del rest k).1, p :: (KV.del rest k).2)

def SSet.add (s : List String) (x : String) : List String :=
  if x ∈ s then s else s ++ [x]

def SSet.rem (s : List String) (x : String) : List String :=
  s.filter (fun y => y != x)

/-! ## Data model (`config/aircraft_config.py`, `models/aircraft_instance.py`) -/

inductive SeatClass where
  | first
  | business
  | premium_economy
  | economy
deriving DecidableEq

structure Seat where
  seat_number : String
  seat_class : SeatClass
deriving DecidableEq

/-- One entry of the static aircraft-model configuration. -/
structure Aircraft where
  model : String
  baggage_capacity_kg : Int
  passenger_capacity : Int
  water_capacity : Int
  fuel_capacity : Int
  seats : List Seat
deriving DecidableEq

/-- The aircraft-instance record (pydantic model `AircraftInstance`). -/
structure AircraftInstance where
  id : Option String := none
  model : String
  flight_id : Option String := none
  node_id : Option String := none
  baggage_capacity_kg : Int
  passenger_capacity : Int
  water_capacity : Int
  fuel_capacity : Int
  actual_passengers : Int := 0
  actual_baggage_kg : Int := 0
  actual_water_kg : Int := 0
  actual_fuel_kg : Int := 0
deriving DecidableEq

/-- `update_passengers`: rejects `count > passenger_capacity` with a
`ValueError`, otherwise stores `count` (no lower-bound check in the source). -/
def AircraftInstance.update_passengers (a : AircraftInstance) (count : Int) :
    Except String AircraftInstance :=
  if a.passenger_capacity < count then
    .error "passenger count exceeds capacity"
  else .ok { a with actual_passengers := count }

def AircraftInstance.update_baggage (a : AircraftInstance) (weight : Int) :
    Except String AircraftInstance :=
  if a.baggage_capacity_kg < weight then
    .error "baggage weight exceeds capacity"
  else .ok { a with actual_baggage_kg := weight }

def AircraftInstance.update_water (a : AircraftInstance) (weight : Int) :
    Except String AircraftInstance :=
  if a.water_capacity < weight then
    .error "water weight exceeds capacity"
  else .ok { a with actual_water_kg := weight }

def AircraftInstance.update_fuel (a : AircraftInstance) (weight : Int) :
    Except String AircraftInstance :=
  if a.fuel_capacity < weight then
    .error "fuel weight exceeds capacity"
  else .ok { a with actual_fuel_kg := weight }

/-- `update_node_id`: unconditional overwrite, no capacity check. -/
def AircraftInstance.update_node_id (a : AircraftInstance) (node_id : String) :
    AircraftInstance :=
  { a with node_id := some node_id }

/-! ## Errors

`HTTPException(status_code, detail)` and `ValueError(msg)` as raised by the
service layer. -/

inductive Err where
  | valueError (msg : String)
  | http (statusCode : Nat) (detail : String)
deriving DecidableEq

/-- `str(e)` of the underlying Python exception, as interpolated into
wrapper messages. -/
def Err.msg : Err → String
  | .valueError m => m
  | .http s d => toString s ++ ": " ++ d

/-! ## Dual-key store state

Namespaces of the single Redis keyspace, split per prefix:
`flights` holds `flight:{flight_id}`, `mapping` holds
`aircraft_to_flight:{aircraft_id}` (the spec calls this key
`instance_to_flight`), `flightsAll` is the set `flights:all`. -/

structure Store where
  flights : List (String × AircraftInstance)
  mapping : List (String × String)
  flightsAll : List String
deriving DecidableEq

def flightNotFoundDetail (fid : String) : String :=
  "aircraft for flight " ++ fid ++ " not found"

def mappingNotFoundDetail (aid : String) : String :=
  "mapping aircraft to flight for " ++ aid ++ " not found"

def flightDataNotFoundDetail (fid : String) : String :=
  "data for flight " ++ fid ++ " not found"

def idNotSetDetail : String := "aircraft id not set"

def noModelsDetail : String := "no aircraft models found in configuration"

def invalidModelDetail (m : String) : String :=
  "aircraft model " ++ m ++ " not found in configuration"

def conflictDetail (aid : String) : String :=
  "aircraft with id " ++ aid ++ " already exists"

/-! ## AircraftService (`services/aircraft_service.py`) -/

/-- The instance built by `generate_random` for a chosen model and the four
values drawn by `random.randint(0, capacity)`: capacities copied from the
configuration entry, no `id`, no `node_id`. -/
def builtInstance (model flight_id : String) (c : Aircraft)
    (rp rb rw rf : Int) : AircraftInstance :=
  { id := none
    model := model
    flight_id := some flight_id
    node_id := none
    baggage_capacity_kg := c.baggage_capacity_kg
    passenger_capacity := c.passenger_capacity
    water_capacity := c.water_capacity
    fuel_capacity := c.fuel_capacity
    actual_passengers := rp
    actual_baggage_kg := rb
    actual_water_kg := rw
    actual_fuel_kg := rf }

def listNth : List String → Nat → String
  | [], _ => ""
  | x :: _, 0 => x
  | _ :: xs, n + 1 => listNth xs n

/-- `random.choice(available_models)`: the drawn index is `r` modulo the
list length. -/
def chooseModel (models : List String) (r : Nat) : String :=
  listNth models (r % models.length)

/-- `generate_random(flight_id, model)`.  `rModel` is the draw of
`random.choice`; `rp rb rw rf` are the values returned by the four
`random.randint(0, capacity)` calls.  Note the source tests `if not model:`,
so a supplied empty-string model takes the random branch. -/
def AircraftService.generate_random (cfg : List (String × Aircraft)) (st : Store)
    (flight_id : String) (model? : Option String)
    (rModel : Nat) (rp rb rw rf : Int) : Except Err AircraftInstance × Store :=
  let availableModels := cfg.map Prod.fst
  let chosen : Except Err String :=
    match model? with
    | none =>
      if availableModels.isEmpty then .error (.valueError noModelsDetail)
      else .ok (chooseModel availableModels rModel)
    | some m =>
      if m = "" then
        if availableModels.isEmpty then .error (.valueError noModelsDetail)
        else .ok (chooseModel availableModels rModel)
      else if m ∈ availableModels then .ok m
      else .error (.valueError (invalidModelDetail m))
  match chosen with
  | .error e => (.error e, st)
  | .ok model =>
    match KV.get cfg model with
    | none => (.error (.valueError "KeyError"), st)
    | some c =>
      let a := builtInstance model flight_id c rp rb rw rf
      (.ok a,
       { st with flights := KV.set st.flights flight_id a
                 flightsAll := SSet.add st.flightsAll flight_id })

/-- `get_by_flight_id`: 404 when `flight:{flight_id}` is absent. -/
def AircraftService.get_by_flight_id (st : Store) (flight_id : String) :
    Except Err AircraftInstance :=
  match KV.get st.flights flight_id with
  | none => .error (.http 404 (flightNotFoundDetail flight_id))
  | some a => .ok a

/-- `get_by_id`: resolves the secondary index (the source tests
`if not flight_id:`, so a stored empty string counts as missing), then loads
the primary record. -/
def AircraftService.get_by_id (st : Store) (aircraft_id : String) :
    Except Err AircraftInstance :=
  match KV.get st.mapping aircraft_id with
  | none => .error (.http 404 (mappingNotFoundDetail aircraft_id))
  | some flight_id =>
    if flight_id = "" then .error (.http 404 (mappingNotFoundDetail aircraft_id))
    else
      match KV.get st.flights flight_id with
      | none => .error (.http 404 (flightDataNotFoundDetail flight_id))
      | some a => .ok a

/-- `set_aircraft_id`: loads by flight id, probes `get_by_id(aircraft_id)`
inside a `try` that swallows only 404s (any successful probe raises the
400 conflict, which propagates because its status is not 404), then sets the
id, persists the record and writes the secondary index entry. -/
def AircraftService.set_aircraft_id (st : Store) (flight_id aircraft_id : String) :
    Except Err AircraftInstance × Store :=
  match AircraftService.get_by_flight_id st flight_id with
  | .error e => (.error e, st)
  | .ok aircraft =>
    match AircraftService.get_by_id st aircraft_id with
    | .ok _ => (.error (.http 400 (conflictDetail aircraft_id)), st)
    | .error e =>
      match e with
      | .http 404 _ =>
        let a' := { aircraft with id := some aircraft_id }
        (.ok a',
         { st with flights := KV.set st.flights flight_id a'
                   mapping := KV.set st.mapping aircraft_id flight_id })
      | _ => (.error e, st)

/-- `update` (save): requires `aircraft.id` (the source tests
`if not aircraft.id:`), resolves the secondary index, re-verifies the primary
record, then overwrites `flight:{flight_id}`. -/
def AircraftService.update (st : Store) (a : AircraftInstance) :
    Except Err AircraftInstance × Store :=
  match a.id with
  | none => (.error (.http 400 idNotSetDetail), st)
  | some aid =>
    if aid = "" then (.error (.http 400 idNotSetDetail), st)
    else
      match KV.get st.mapping aid with
      | none => (.error (.http 404 (mappingNotFoundDetail aid)), st)
      | some flight_id =>
        if flight_id = "" then
          (.error (.http 404 (mappingNotFoundDetail aid)), st)
        else
          match KV.get st.flights flight_id with
          | none => (.error (.http 404 (flightDataNotFoundDetail flight_id)), st)
          | some _ => (.ok a, { st with flights := KV.set st.flights flight_id a })

/-- `delete(aircraft_id) -> bool`: resolves the secondary index (returning
`False` if absent or falsy), deletes `flight:{flight_id}` and the mapping,
removes the flight from `flights:all`, and reports whether either key
deletion removed something. -/
def AircraftService.delete (st : Store) (aircraft_id : String) : Bool × Store :=
  match KV.get st.mapping aircraft_id with
  | none => (false, st)
  | some flight_id =>
    if flight_id = "" then (false, st)
    else
      ((decide (0 < (KV.del st.flights flight_id).1)
        || decide (0 < (KV.del st.mapping aircraft_id).1)),
       { flights := (KV.del st.flights flight_id).2
         mapping := (KV.del st.mapping aircraft_id).2
         flightsAll := SSet.rem st.flightsAll flight_id })

/-- `update_passengers`: load by id, apply the capacity-checked model
mutation (`ValueError` becomes a 400), then persist via `update`. -/
def AircraftService.update_passengers (st : Store) (aircraft_id : String)
    (count : Int) : Except Err AircraftInstance × Store :=
  match AircraftService.get_by_id st aircraft_id with
  | .error e => (.error e, st)
  | .ok current =>
    match current.update_passengers count with
    | .error m => (.error (.http 400 m), st)
    | .ok a' => AircraftService.update st a'

def AircraftService.update_baggage (st : Store) (aircraft_id : String)
    (weight : Int) : Except Err AircraftInstance × Store :=
  match AircraftService.get_by_id st aircraft_id with
  | .error e => (.error e, st)
  | .ok current =>
    match current.update_baggage weight with
    | .error m => (.error (.http 400 m), st)
    | .ok a' => AircraftService.update st a'

def AircraftService.update_water (st : Store) (aircraft_id : String)
    (weight : Int) : Except Err AircraftInstance × Store :=
  match AircraftService.get_by_id st aircraft_id with
  | .error e => (.error e, st)
  | .ok current =>
    match current.update_water weight with
    | .error m => (.error (.http 400 m), st)
    | .ok a' => AircraftService.update st a'

def AircraftService.update_fuel (st : Store) (aircraft_id : String)
    (weight : Int) : Except Err AircraftInstance × Store :=
  match AircraftService.get_by_id st aircraft_id with
  | .error e => (.error e, st)
  | .ok current =>
    match current.update_fuel weight with
    | .error m => (.error (.http 400 m), st)
    | .ok a' => AircraftService.update st a'

/-! ## Retrying gateway client (`gateways/base.py`) -/

/-- What the network produces for one attempt: an HTTP response with a
status code and body, or a connection error / timeout. -/
inductive HttpEvent where
  | response (statusCode : Nat) (body : String)
  | netErr (msg : String)
deriving DecidableEq

/-- Result of `_make_request`: a successful body, a raised last error after
the retry budget is exhausted, or divergence (the `max_retries == 0`
unbounded loop, modelled with fuel). `attempts` counts HTTP attempts made,
`sleeps` counts `asyncio.sleep` calls. -/
inductive ReqResult where
  | success (body : String) (attempts sleeps : Nat)
  | failure (lastErrMsg : String) (attempts sleeps : Nat)
  | diverge
deriving DecidableEq

/-- The `while` loop of `_make_request`.  One iteration attempts the call;
a non-2xx status raises an `Exception` — the source raises early for 4xx
other than 429, but that `raise` sits inside the same `try` whose `except`
clause catches `Exception`, so every raised error reaches the same handler:
increment `retries`, re-raise if the finite budget is exhausted, otherwise
sleep and loop. -/
def requestLoop (max_retries : Nat) (resp : Nat → HttpEvent) :
    Nat → Nat → Nat → Nat → ReqResult
  | 0, _, _, _ => .diverge
  | fuel + 1, i, retries, sleeps =>
    let step : Except String String :=
      match resp i with
      | .response s b =>
        if 200 ≤ s ∧ s < 300 then .ok b
        else .error ("request error: status " ++ toString s)
      | .netErr m => .error m
    match step with
    | .ok b => .success b (i + 1) sleeps
    | .error m =>
      if 0 < max_retries ∧ max_retries < retries + 1 then
        .failure m (i + 1) sleeps
      else requestLoop max_retries resp fuel (i + 1) (retries + 1) (sleeps + 1)

def make_request (max_retries fuel : Nat) (resp : Nat → HttpEvent) : ReqResult :=
  requestLoop max_retries resp fuel 0 0 0

/-! ## Routes (`routers/aircraft.py`) -/

/-- Ground-Control registration response fields extracted by the landing
route (`gc_response.get(...)` can yield a missing field). -/
structure GCResp where
  vehicleId : Option String
  garrageNodeId : Option String
deriving DecidableEq

/-- Python truthiness test `if not x:` on an optional string. -/
def falsyOpt : Option String → Bool
  | none => true
  | some s => decide (s = "")

/-- The detail prefix of the landing route's generic 500 wrapper. -/
def wrapLanding (e : Err) : Err :=
  .http 500 ("error during aircraft landing: " ++ e.msg)

/-- `POST /{flight_id}/landing`.  The instance lookup happens before the
`try`; everything after it runs inside `try ... except Exception`, whose
handler wraps any exception (`HTTPException` included, since it subclasses
`Exception`) into a 500 carrying the original message.  `gc` is the outcome
of the Ground-Control registration call, `orch` the outcome of the
orchestrator landing report. -/
def landing_aircraft (st : Store) (flight_id : String)
    (gc : Except String GCResp) (orch : Except String String) :
    Except Err String × Store :=
  match AircraftService.get_by_flight_id st flight_id with
  | .error e => (.error e, st)
  | .ok _aircraft =>
    match gc with
    | .error m => (.error (wrapLanding (.valueError m)), st)
    | .ok resp =>
      if falsyOpt resp.vehicleId || falsyOpt resp.garrageNodeId then
        (.error (wrapLanding (.http 502 "ground control returned incomplete data")),
         st)
      else
        let aircraft_id := resp.vehicleId.getD ""
        let node_id := resp.garrageNodeId.getD ""
        match AircraftService.set_aircraft_id st flight_id aircraft_id with
        | (.error e, st1) => (.error (wrapLanding e), st1)
        | (.ok a, st1) =>
          let a2 := a.update_node_id node_id
          match AircraftService.update st1 a2 with
          | (.error e, st2) => (.error (wrapLanding e), st2)
          | (.ok _, st2) =>
            match orch with
            | .error m => (.error (wrapLanding (.valueError m)), st2)
            | .ok _ => (.ok (a2.id.getD ""), st2)

/-- `POST /{aircraft_id}/takeoff`: calls `delete` and discards its boolean
result; the route body then falls through to the declared 200 status. -/
def takeoff_aircraft (st : Store) (aircraft_id : String) :
    Except Err Nat × Store :=
  let r := AircraftService.delete st aircraft_id
  (.ok 200, r.2)

/-! ## Concrete sample data -/

def a320 : Aircraft :=
  { model := "A320"
    baggage_capacity_kg := 1000
    passenger_capacity := 180
    water_capacity := 500
    fuel_capacity := 20000
    seats := [] }

def cfg0 : List (String × Aircraft) := [("A320", a320)]

def st0 : Store := { flights := [], mapping := [], flightsAll := [] }

/-- The instance generated for flight `FL100` with draws `5, 5, 5, 5`. -/
def aGen : AircraftInstance := builtInstance "A320" "FL100" a320 5 5 5 5

/-- `aGen` after `set_aircraft_id("FL100", "AC1")`. -/
def aAssigned : AircraftInstance := { aGen with id := some "AC1" }

/-- The store after generating for `FL100` and assigning id `AC1`. -/
def stAssigned : Store :=
  { flights := [("FL100", aAssigned)]
    mapping := [("AC1", "FL100")]
    flightsAll := ["FL100"] }

/-- The store after generating an instance for `FL100` but before any id
assignment. -/
def stGen : Store :=
  { flights := [("FL100", aGen)], mapping := [], flightsAll := ["FL100"] }

/-- The reachable instance with a negative passenger count: generate for
`FL100`, assign id `AC1`, then `update_passengers(-1)`. -/
def aNeg : AircraftInstance := { aAssigned with actual_passengers := -1 }

/-! ## Helper lemmas about the backend primitives -/

theorem KV.get_set_self {α : Type} (m : List (String × α)) (k : String) (v : α) :
    KV.get (KV.set m k v) k = some v := by
  induction m with
  | nil => simp [KV.set, KV.get]
  | cons p rest ih =>
    by_cases h : p.1 = k
    · simp [KV.set, h, KV.get]
    · simp [KV.set, h, KV.get, ih]

theorem KV.get_set_ne {α : Type} (m : List (String × α)) (k k' : String) (v : α)
    (h : k' ≠ k) : KV.get (KV.set m k v) k' = KV.get m k' := by
  induction m with
  | nil => simp [KV.set, KV.get, Ne.symm h]
  | cons p rest ih =>
    by_cases hp : p.1 = k
    · simp [KV.set, hp, KV.get, Ne.symm h, ih]
    · simp [KV.set, hp, KV.get, ih]

theorem KV.get_del_self {α : Type} (m : List (String × α)) (k : String) :
    KV.get (KV.del m k).2 k = none := by
  induction m with
  | nil => simp [KV.del, KV.get]
  | cons p rest ih =>
    by_cases hp : p.1 = k
    · simp [KV.del, hp, ih]
    · simp [KV.del, hp, KV.get, ih]

theorem KV.get_del_ne {α : Type} (m : List (String × α)) (k k' : String)
    (h : k' ≠ k) : KV.get (KV.del m k).2 k' = KV.get m k' := by
  induction m with
  | nil => simp [KV.del, KV.get]
  | cons p rest ih =>
    by_cases hp : p.1 = k
    · simp [KV.del, hp, KV.get, Ne.symm h, ih]
    · simp [KV.del, hp, KV.get, ih]

theorem KV.del_fst_pos {α : Type} (m : List (String × α)) (k : String) (v : α)
    (h : KV.get m k = some v) : 0 < (KV.del m k).1 := by
  induction m with
  | nil => simp [KV.get] at h
  | cons p rest ih =>
    by_cases hp : p.1 = k
    · simp [KV.del, hp]
    · simp [KV.get, hp] at h
      simp [KV.del, hp]
      exact ih h

theorem KV.get_of_mem_keys {α : Type} (m : List (String × α)) (k : String)
    (h : k ∈ m.map Prod.fst) : ∃ v, KV.get m k = some v := by
  induction m with
  | nil => simp at h
  | cons p rest ih =>
    by_cases hp : p.1 = k
    · exact ⟨p.2, by simp [KV.get, hp]⟩
    · have h' : k = p.1 ∨ k ∈ rest.map Prod.fst := by simpa using h
      rcases h' with h1 | h1
      · exact absurd h1.symm hp
      · obtain ⟨v, hv⟩ := ih h1
        exact ⟨v, by simp [KV.get, hp, hv]⟩

theorem KV.mem_keys_of_get {α : Type} (m : List (String × α)) (k : String) (v : α)
    (h : KV.get m k = some v) : k ∈ m.map Prod.fst := by
  induction m with
  | nil => simp [KV.get] at h
  | cons p rest ih =>
    by_cases hp : p.1 = k
    · simp [hp]
    · simp [KV.get, hp] at h
      simp [ih h]

theorem SSet.mem_add (s : List String) (x : String) : x ∈ SSet.add s x := by
  by_cases h : x ∈ s <;> simp [SSet.add, h]

theorem SSet.not_mem_rem (s : List String) (x : String) : x ∉ SSet.rem s x := by
  simp [SSet.rem]

theorem listNth_mem (l : List String) (i : Nat) (h : i < l.length) :
    listNth l i ∈ l := by
  induction l generalizing i with
  | nil => simp at h
  | cons x xs ih =>
    cases i with
    | zero => simp [listNth]
    | succ n =>
      have hn : n < xs.length := by simpa using h
      exact List.mem_cons_of_mem x (ih n hn)

/-! ## C2 — 4xx responses and the retry loop -/

/-- C2: the claim says a response with status in `[400,500)` other than 429
(in particular 404) is raised immediately, without any retry attempt and
without sleeping.  The code disagrees: the early `raise` for 4xx is caught
by the `except (ClientError, asyncio.TimeoutError, Exception)` clause of the
same `try`, so a 404 is retried like any retryable failure.  With
`max_retries = 1` and a server that always answers 404, the client makes a
second attempt and sleeps once before raising. -/
theorem make_request_retries_on_404 :
    make_request 1 10 (fun _ => .response 404 "") =
      .failure ("request error: status 404") 2 1 := by
  decide

/-! ## C10 — takeoff ignores the boolean result of delete -/

/-- C10: the takeoff route discards `delete`'s boolean result, so every
takeoff reports HTTP 200; in particular with no secondary-index mapping the
deletion is a no-op (`delete` returns `false` and leaves the store intact)
yet the route still reports 200, indistinguishable from a successful
deletion. -/
theorem takeoff_ignores_delete_result (st : Store) (aircraft_id : String) :
    (takeoff_aircraft st aircraft_id).1 = .ok 200 ∧
    (KV.get st.mapping aircraft_id = none →
      AircraftService.delete st aircraft_id = (false, st) ∧
      takeoff_aircraft st aircraft_id = (.ok 200, st)) := by
  constructor
  · simp [takeoff_aircraft]
  · intro h
    have hd : AircraftService.delete st aircraft_id = (false, st) := by
      simp [AircraftService.delete, h]
    exact ⟨hd, by simp [takeoff_aircraft, hd]⟩

/-- Witness for C10 at a concrete unmapped id on the empty store. -/
theorem takeoff_ignores_delete_result_witness :
    AircraftService.delete st0 "AC9" = (false, st0) ∧
    takeoff_aircraft st0 "AC9" = (.ok 200, st0) :=
  (takeoff_ignores_delete_result st0 "AC9").2 (by decide)

/-! ## C8 — delete -/

/-- C8: `delete` returns `false` (no error) when the secondary-index entry
is absent; otherwise it deletes `flight:{flight_id}` and the mapping,
removes the flight from `flights:all`, and returns `true` (the mapping
deletion removed an entry); afterwards `get_by_id` on the id and
`get_by_flight_id` on the mapped flight both fail with 404. -/
theorem delete_spec (st : Store) (A F : String) :
    (KV.get st.mapping A = none → AircraftService.delete st A = (false, st)) ∧
    (KV.get st.mapping A = some F → F ≠ "" →
      AircraftService.delete st A =
        (true, { flights := (KV.del st.flights F).2
                 mapping := (KV.del st.mapping A).2
                 flightsAll := SSet.rem st.flightsAll F }) ∧
      F ∉ (AircraftService.delete st A).2.flightsAll ∧
      AircraftService.get_by_id (AircraftService.delete st A).2 A =
        .error (.http 404 (mappingNotFoundDetail A)) ∧
      AircraftService.get_by_flight_id (AircraftService.delete st A).2 F =
        .error (.http 404 (flightNotFoundDetail F))) := by
  constructor
  · intro h
    simp [AircraftService.delete, h]
  · intro hmap hF
    have hpos := KV.del_fst_pos st.mapping A F hmap
    have hd : AircraftService.delete st A =
        (true, { flights := (KV.del st.flights F).2
                 mapping := (KV.del st.mapping A).2
                 flightsAll := SSet.rem st.flightsAll F }) := by
      simp [AircraftService.delete, hmap, hF, hpos]
    refine ⟨hd, ?_, ?_, ?_⟩
    · rw [hd]
      exact SSet.not_mem_rem st.flightsAll F
    · rw [hd]
      simp [AircraftService.get_by_id, KV.get_del_self]
    · rw [hd]
      simp [AircraftService.get_by_flight_id, KV.get_del_self]

/-- Witness for C8 on the store holding flight `FL100` with assigned id
`AC1`. -/
theorem delete_spec_witness :
    AircraftService.delete stAssigned "AC1" =
      (true, { flights := (KV.del stAssigned.flights "FL100").2
               mapping := (KV.del stAssigned.mapping "AC1").2
               flightsAll := SSet.rem stAssigned.flightsAll "FL100" }) ∧
    "FL100" ∉ (AircraftService.delete stAssigned "AC1").2.flightsAll ∧
    AircraftService.get_by_id (AircraftService.delete stAssigned "AC1").2 "AC1" =
      .error (.http 404 (mappingNotFoundDetail "AC1")) ∧
    AircraftService.get_by_flight_id
        (AircraftService.delete stAssigned "AC1").2 "FL100" =
      .error (.http 404 (flightNotFoundDetail "FL100")) :=
  (delete_spec stAssigned "AC1" "FL100").2 (by decide) (by decide)

/-! ## C7 — round trip after identifier assignment -/

/-- C7: for a flight whose record exists (and carries its own flight id, as
every record written by this service does) and an unmapped instance id,
`set_aircraft_id` succeeds and a subsequent `get_by_id` returns the updated
instance, whose `id` is the assigned id and whose `flight_id` is the flight. -/
theorem assign_then_get_by_id_roundtrip (st : Store) (F A : String)
    (a : AircraftInstance)
    (hf : KV.get st.flights F = some a) (hFe : F ≠ "")
    (hfid : a.flight_id = some F)
    (hmap : KV.get st.mapping A = none) :
    AircraftService.set_aircraft_id st F A =
      (.ok { a with id := some A },
       { st with flights := KV.set st.flights F { a with id := some A }
                 mapping := KV.set st.mapping A F }) ∧
    AircraftService.get_by_id
        { st with flights := KV.set st.flights F { a with id := some A }
                  mapping := KV.set st.mapping A F } A =
      .ok { a with id := some A } ∧
    ({ a with id := some A } : AircraftInstance).id = some A ∧
    ({ a with id := some A } : AircraftInstance).flight_id = some F := by
  refine ⟨?_, ?_, rfl, hfid⟩
  · simp [AircraftService.set_aircraft_id, AircraftService.get_by_flight_id, hf,
          AircraftService.get_by_id, hmap]
  · simp [AircraftService.get_by_id, KV.get_set_self, hFe]

/-- Witness for C7: assigning `AC1` to `FL100` on a store that holds only
the freshly generated record. -/
theorem assign_then_get_by_id_roundtrip_witness :
    AircraftService.set_aircraft_id
        { flights := [("FL100", aGen)], mapping := [], flightsAll := ["FL100"] }
        "FL100" "AC1" =
      (.ok { aGen with id := some "AC1" },
       { flights := KV.set [("FL100", aGen)] "FL100" { aGen with id := some "AC1" }
         mapping := KV.set [] "AC1" "FL100"
         flightsAll := ["FL100"] }) ∧
    AircraftService.get_by_id
        { flights := KV.set [("FL100", aGen)] "FL100" { aGen with id := some "AC1" }
          mapping := KV.set [] "AC1" "FL100"
          flightsAll := ["FL100"] } "AC1" =
      .ok { aGen with id := some "AC1" } ∧
    ({ aGen with id := some "AC1" } : AircraftInstance).id = some "AC1" ∧
    ({ aGen with id := some "AC1" } : AircraftInstance).flight_id = some "FL100" :=
  assign_then_get_by_id_roundtrip
    { flights := [("FL100", aGen)], mapping := [], flightsAll := ["FL100"] }
    "FL100" "AC1" aGen rfl (by decide) rfl rfl

/-! ## C1 — identifier assignment and conflicts -/

/-- C1 counterexample: the claim says `assignId(flightId, instanceId)`
succeeds when `instanceId` already maps to `flightId` itself.  In the code
the conflict probe is `get_by_id(aircraft_id)` and any successful probe
raises the 400 conflict, so re-assigning the very same id to the very same
flight fails. -/
theorem set_aircraft_id_self_mapping_conflict :
    KV.get stAssigned.mapping "AC1" = some "FL100" ∧
    AircraftService.set_aircraft_id stAssigned "FL100" "AC1" =
      (.error (.http 400 (conflictDetail "AC1")), stAssigned) :=
  ⟨rfl, rfl⟩

/-- C1 (amended): for a flight with an existing record, `set_aircraft_id`
fails with the 400 conflict exactly when the secondary index maps
`aircraft_id` to some flight whose record exists — including `flight_id`
itself; when the mapping is absent or stale it succeeds, sets the id,
persists the record under the flight key and writes the secondary-index
entry. -/
theorem set_aircraft_id_conflict_spec (st : Store) (F A : String)
    (a : AircraftInstance) (hF : KV.get st.flights F = some a) :
    ((∃ F2, KV.get st.mapping A = some F2 ∧ F2 ≠ "" ∧
        (KV.get st.flights F2).isSome) →
      AircraftService.set_aircraft_id st F A =
        (.error (.http 400 (conflictDetail A)), st)) ∧
    ((∀ F2, KV.get st.mapping A = some F2 → F2 = "" ∨ KV.get st.flights F2 = none) →
      AircraftService.set_aircraft_id st F A =
        (.ok { a with id := some A },
         { st with flights := KV.set st.flights F { a with id := some A }
                   mapping := KV.set st.mapping A F })) := by
  constructor
  · rintro ⟨F2, hm, hne, hsome⟩
    obtain ⟨b, hb⟩ := Option.isSome_iff_exists.mp hsome
    simp [AircraftService.set_aircraft_id, AircraftService.get_by_flight_id, hF,
          AircraftService.get_by_id, hm, hne, hb]
  · intro hno
    cases hmA : KV.get st.mapping A with
    | none =>
      simp [AircraftService.set_aircraft_id, AircraftService.get_by_flight_id, hF,
            AircraftService.get_by_id, hmA]
    | some F2 =>
      rcases hno F2 hmA with h0 | h0
      · subst h0
        simp [AircraftService.set_aircraft_id, AircraftService.get_by_flight_id, hF,
              AircraftService.get_by_id, hmA]
      · by_cases hne : F2 = ""
        · subst hne
          simp [AircraftService.set_aircraft_id, AircraftService.get_by_flight_id,
                hF, AircraftService.get_by_id, hmA]
        · simp [AircraftService.set_aircraft_id, AircraftService.get_by_flight_id,
                hF, AircraftService.get_by_id, hmA, hne, h0]

/-- Witness for C1 (amended), success branch: assigning a fresh id on the
freshly generated store. -/
theorem set_aircraft_id_conflict_spec_witness :
    AircraftService.set_aircraft_id stGen "FL100" "AC1" =
      (.ok { aGen with id := some "AC1" },
       { stGen with flights := KV.set stGen.flights "FL100" { aGen with id := some "AC1" }
                    mapping := KV.set stGen.mapping "AC1" "FL100" }) :=
  (set_aircraft_id_conflict_spec stGen "FL100" "AC1" aGen rfl).2
    (by intro F2 h; simp [stGen, KV.get] at h)

/-! ## C5 — resource setters -/

/-- C5: on a consistently indexed instance (mapping `A -> F`, record under
`F`, record id `A`), each service-level setter succeeds for
`0 ≤ value ≤ capacity` and persists exactly that value, and fails with a
400 for `value > capacity`, leaving the store untouched (the mutation is
rejected before any write). -/
theorem resource_setters_spec (st : Store) (A F : String) (a : AircraftInstance)
    (hmap : KV.get st.mapping A = some F) (hFe : F ≠ "")
    (hf : KV.get st.flights F = some a)
    (hid : a.id = some A) (hAe : A ≠ "") :
    (∀ c : Int, 0 ≤ c → c ≤ a.passenger_capacity →
      AircraftService.update_passengers st A c =
        (.ok { a with actual_passengers := c },
         { st with flights := KV.set st.flights F { a with actual_passengers := c } })) ∧
    (∀ c : Int, a.passenger_capacity < c →
      AircraftService.update_passengers st A c =
        (.error (.http 400 "passenger count exceeds capacity"), st)) ∧
    (∀ c : Int, 0 ≤ c → c ≤ a.baggage_capacity_kg →
      AircraftService.update_baggage st A c =
        (.ok { a with actual_baggage_kg := c },
         { st with flights := KV.set st.flights F { a with actual_baggage_kg := c } })) ∧
    (∀ c : Int, a.baggage_capacity_kg < c →
      AircraftService.update_baggage st A c =
        (.error (.http 400 "baggage weight exceeds capacity"), st)) ∧
    (∀ c : Int, 0 ≤ c → c ≤ a.water_capacity →
      AircraftService.update_water st A c =
        (.ok { a with actual_water_kg := c },
         { st with flights := KV.set st.flights F { a with actual_water_kg := c } })) ∧
    (∀ c : Int, a.water_capacity < c →
      AircraftService.update_water st A c =
        (.error (.http 400 "water weight exceeds capacity"), st)) ∧
    (∀ c : Int, 0 ≤ c → c ≤ a.fuel_capacity →
      AircraftService.update_fuel st A c =
        (.ok { a with actual_fuel_kg := c },
         { st with flights := KV.set st.flights F { a with actual_fuel_kg := c } })) ∧
    (∀ c : Int, a.fuel_capacity < c →
      AircraftService.update_fuel st A c =
        (.error (.http 400 "fuel weight exceeds capacity"), st)) := by
  have hget : AircraftService.get_by_id st A = .ok a := by
    simp [AircraftService.get_by_id, hmap, hFe, hf]
  refine ⟨?_, ?_, ?_, ?_, ?_, ?_, ?_, ?_⟩
  · intro c _h1 h2
    simp [AircraftService.update_passengers, hget,
          AircraftInstance.update_passengers, not_lt.mpr h2,
          AircraftService.update, hid, hAe, hmap, hFe, hf]
  · intro c h
    simp [AircraftService.update_passengers, hget,
          AircraftInstance.update_passengers, h]
  · intro c _h1 h2
    simp [AircraftService.update_baggage, hget,
          AircraftInstance.update_baggage, not_lt.mpr h2,
          AircraftService.update, hid, hAe, hmap, hFe, hf]
  · intro c h
    simp [AircraftService.update_baggage, hget,
          AircraftInstance.update_baggage, h]
  · intro c _h1 h2
    simp [AircraftService.update_water, hget,
          AircraftInstance.update_water, not_lt.mpr h2,
          AircraftService.update, hid, hAe, hmap, hFe, hf]
  · intro c h
    simp [AircraftService.update_water, hget,
          AircraftInstance.update_water, h]
  · intro c _h1 h2
    simp [AircraftService.update_fuel, hget,
          AircraftInstance.update_fuel, not_lt.mpr h2,
          AircraftService.update, hid, hAe, hmap, hFe, hf]
  · intro c h
    simp [AircraftService.update_fuel, hget,
          AircraftInstance.update_fuel, h]

/-- Witness for C5: setting 150 passengers (within the 180 capacity)
succeeds and persists, setting 200 fails with a 400 and leaves the store
unchanged. -/
theorem resource_setters_spec_witness :
    AircraftService.update_passengers stAssigned "AC1" 150 =
      (.ok { aAssigned with actual_passengers := 150 },
       { stAssigned with
           flights := KV.set stAssigned.flights "FL100"
             { aAssigned with actual_passengers := 150 } }) ∧
    AircraftService.update_passengers stAssigned "AC1" 200 =
      (.error (.http 400 "passenger count exceeds capacity"), stAssigned) :=
  ⟨(resource_setters_spec stAssigned "AC1" "FL100" aAssigned rfl (by decide) rfl
      rfl (by decide)).1 150 (by decide) (by decide),
   (resource_setters_spec stAssigned "AC1" "FL100" aAssigned rfl (by decide) rfl
      rfl (by decide)).2.1 200 (by decide)⟩

/-! ## C9 — regeneration over an identified flight -/

/-- C9: `generate_random` on a flight that already has a stored instance
with an assigned id succeeds, overwrites `flight:{flight_id}` with a fresh
id-less instance, leaves the old secondary-index entry in place, and a
subsequent `get_by_id` through the old id returns the fresh instance whose
`id` is `none`. -/
theorem generate_random_stale_mapping_spec (cfg : List (String × Aircraft))
    (st : Store) (F oldId m : String) (aOld : AircraftInstance) (c : Aircraft)
    (rp rb rw rf : Int)
    (_hOld : KV.get st.flights F = some aOld) (_hOldId : aOld.id = some oldId)
    (hmap : KV.get st.mapping oldId = some F) (hFe : F ≠ "")
    (hme : m ≠ "") (hc : KV.get cfg m = some c) :
    AircraftService.generate_random cfg st F (some m) 0 rp rb rw rf =
      (.ok (builtInstance m F c rp rb rw rf),
       { st with flights := KV.set st.flights F (builtInstance m F c rp rb rw rf)
                 flightsAll := SSet.add st.flightsAll F }) ∧
    KV.get ({ st with
                flights := KV.set st.flights F (builtInstance m F c rp rb rw rf)
                flightsAll := SSet.add st.flightsAll F } : Store).mapping oldId =
      some F ∧
    AircraftService.get_by_id
        { st with flights := KV.set st.flights F (builtInstance m F c rp rb rw rf)
                  flightsAll := SSet.add st.flightsAll F } oldId =
      .ok (builtInstance m F c rp rb rw rf) ∧
    (builtInstance m F c rp rb rw rf).id = none := by
  have hmem : m ∈ cfg.map Prod.fst := KV.mem_keys_of_get cfg m c hc
  refine ⟨?_, hmap, ?_, rfl⟩
  · simp [AircraftService.generate_random, hme, hmem, hc]
  · simp [AircraftService.get_by_id, hmap, hFe, KV.get_set_self]

/-- Witness for C9: regenerating flight `FL100` after id `AC1` was assigned
leaves the mapping in place and `get_by_id "AC1"` now yields an id-less
instance. -/
theorem generate_random_stale_mapping_spec_witness :
    AircraftService.generate_random cfg0 stAssigned "FL100" (some "A320") 0 7 7 7 7 =
      (.ok (builtInstance "A320" "FL100" a320 7 7 7 7),
       { stAssigned with
           flights := KV.set stAssigned.flights "FL100"
             (builtInstance "A320" "FL100" a320 7 7 7 7)
           flightsAll := SSet.add stAssigned.flightsAll "FL100" }) ∧
    KV.get ({ stAssigned with
                flights := KV.set stAssigned.flights "FL100"
                  (builtInstance "A320" "FL100" a320 7 7 7 7)
                flightsAll := SSet.add stAssigned.flightsAll "FL100" } : Store).mapping
        "AC1" = some "FL100" ∧
    AircraftService.get_by_id
        { stAssigned with
            flights := KV.set stAssigned.flights "FL100"
              (builtInstance "A320" "FL100" a320 7 7 7 7)
            flightsAll := SSet.add stAssigned.flightsAll "FL100" } "AC1" =
      .ok (builtInstance "A320" "FL100" a320 7 7 7 7) ∧
    (builtInstance "A320" "FL100" a320 7 7 7 7).id = none :=
  generate_random_stale_mapping_spec cfg0 stAssigned "FL100" "AC1" "A320"
    aAssigned a320 7 7 7 7 rfl rfl rfl (by decide) (by decide) rfl

/-! ## C6 — random generation -/

/-- C6 counterexample: the claim says a supplied model absent from the
configuration fails with `InvalidModel`.  The source tests `if not model:`,
so the supplied empty-string model — absent from the configuration — is
treated as omitted and generation succeeds with a randomly chosen model. -/
theorem generate_random_empty_model_not_rejected :
    "" ∉ cfg0.map Prod.fst ∧
    AircraftService.generate_random cfg0 st0 "FL100" (some "") 0 5 5 5 5 =
      (.ok aGen,
       { st0 with flights := KV.set st0.flights "FL100" aGen
                  flightsAll := SSet.add st0.flightsAll "FL100" }) :=
  ⟨by decide, rfl⟩

/-- C6 (amended): `generate_random` fails with the configuration error when
no models are configured, fails with the invalid-model error when a supplied
non-empty model is absent from the configuration (an empty-string model is
treated as omitted), and otherwise returns an instance whose capacities are
copied from the chosen model's configuration entry, whose id is unset, and
whose actual values obey `0 ≤ actual ≤ capacity` under the `randint`
contract; the record is written under the flight key and the flight id is
added to `flights:all`. -/
theorem generate_random_spec (cfg : List (String × Aircraft)) (st : Store)
    (fid : String) (rm : Nat) (rp rb rw rf : Int) :
    (cfg = [] →
      AircraftService.generate_random cfg st fid none rm rp rb rw rf =
        (.error (.valueError noModelsDetail), st)) ∧
    (∀ m, m ≠ "" → m ∉ cfg.map Prod.fst →
      AircraftService.generate_random cfg st fid (some m) rm rp rb rw rf =
        (.error (.valueError (invalidModelDetail m)), st)) ∧
    (∀ m c, m ≠ "" → KV.get cfg m = some c →
      AircraftService.generate_random cfg st fid (some m) rm rp rb rw rf =
        (.ok (builtInstance m fid c rp rb rw rf),
         { st with
             flights := KV.set st.flights fid (builtInstance m fid c rp rb rw rf)
             flightsAll := SSet.add st.flightsAll fid })) ∧
    (cfg ≠ [] →
      ∃ c, KV.get cfg (chooseModel (cfg.map Prod.fst) rm) = some c ∧
        chooseModel (cfg.map Prod.fst) rm ∈ cfg.map Prod.fst ∧
        AircraftService.generate_random cfg st fid none rm rp rb rw rf =
          (.ok (builtInstance (chooseModel (cfg.map Prod.fst) rm) fid c rp rb rw rf),
           { st with
               flights := KV.set st.flights fid
                 (builtInstance (chooseModel (cfg.map Prod.fst) rm) fid c rp rb rw rf)
               flightsAll := SSet.add st.flightsAll fid })) ∧
    (∀ m c,
      (builtInstance m fid c rp rb rw rf).id = none ∧
      (builtInstance m fid c rp rb rw rf).passenger_capacity = c.passenger_capacity ∧
      (builtInstance m fid c rp rb rw rf).baggage_capacity_kg = c.baggage_capacity_kg ∧
      (builtInstance m fid c rp rb rw rf).water_capacity = c.water_capacity ∧
      (builtInstance m fid c rp rb rw rf).fuel_capacity = c.fuel_capacity) ∧
    (∀ m c, 0 ≤ rp → rp ≤ c.passenger_capacity →
      0 ≤ rb → rb ≤ c.baggage_capacity_kg →
      0 ≤ rw → rw ≤ c.water_capacity →
      0 ≤ rf → rf ≤ c.fuel_capacity →
      (0 ≤ (builtInstance m fid c rp rb rw rf).actual_passengers ∧
        (builtInstance m fid c rp rb rw rf).actual_passengers ≤
          (builtInstance m fid c rp rb rw rf).passenger_capacity) ∧
      (0 ≤ (builtInstance m fid c rp rb rw rf).actual_baggage_kg ∧
        (builtInstance m fid c rp rb rw rf).actual_baggage_kg ≤
          (builtInstance m fid c rp rb rw rf).baggage_capacity_kg) ∧
      (0 ≤ (builtInstance m fid c rp rb rw rf).actual_water_kg ∧
        (builtInstance m fid c rp rb rw rf).actual_water_kg ≤
          (builtInstance m fid c rp rb rw rf).water_capacity) ∧
      (0 ≤ (builtInstance m fid c rp rb rw rf).actual_fuel_kg ∧
        (builtInstance m fid c rp rb rw rf).actual_fuel_kg ≤
          (builtInstance m fid c rp rb rw rf).fuel_capacity)) := by
  refine ⟨?_, ?_, ?_, ?_, ?_, ?_⟩
  · intro h
    subst h
    simp [AircraftService.generate_random]
  · intro m hme hm
    simp [AircraftService.generate_random, hme, hm]
  · intro m c hme hc
    have hmem : m ∈ cfg.map Prod.fst := KV.mem_keys_of_get cfg m c hc
    simp [AircraftService.generate_random, hme, hmem, hc]
  · intro hne
    have hkeys : cfg.map Prod.fst ≠ [] := by
      cases cfg with
      | nil => exact absurd rfl hne
      | cons p rest => simp
    have hlen : 0 < (cfg.map Prod.fst).length := List.length_pos.mpr hkeys
    have hmem : chooseModel (cfg.map Prod.fst) rm ∈ cfg.map Prod.fst :=
      listNth_mem _ _ (Nat.mod_lt _ hlen)
    obtain ⟨c, hc⟩ := KV.get_of_mem_keys cfg _ hmem
    refine ⟨c, hc, hmem, ?_⟩
    have hempty : (cfg.map Prod.fst).isEmpty = false := by
      cases cfg with
      | nil => exact absurd rfl hne
      | cons p rest => rfl
    simp [AircraftService.generate_random, hempty, hc]
  · intro m c
    exact ⟨rfl, rfl, rfl, rfl, rfl⟩
  · intro m c h1 h2 h3 h4 h5 h6 h7 h8
    exact ⟨⟨h1, h2⟩, ⟨h3, h4⟩, ⟨h5, h6⟩, ⟨h7, h8⟩⟩

/-- Witness for C6 on the one-model configuration: generating for `FL100`
with the supplied model `A320`. -/
theorem generate_random_spec_witness :
    AircraftService.generate_random cfg0 st0 "FL100" (some "A320") 0 5 5 5 5 =
      (.ok (builtInstance "A320" "FL100" a320 5 5 5 5),
       { st0 with
           flights := KV.set st0.flights "FL100" (builtInstance "A320" "FL100" a320 5 5 5 5)
           flightsAll := SSet.add st0.flightsAll "FL100" }) :=
  (generate_random_spec cfg0 st0 "FL100" 0 5 5 5 5).2.2.1 "A320" a320
    (by decide) rfl

/-! ## C3 — capacity invariant -/

/-- C3 counterexample: the claim says every reachable state satisfies
`0 ≤ actual` and every operation preserves it.  The setters check only the
upper bound, so from the reachable store (generate, then assign) the
public update with `-1` succeeds and persists `actual_passengers = -1`. -/
theorem negative_passengers_reachable :
    (AircraftService.generate_random cfg0 st0 "FL100" (some "A320") 0 5 5 5 5).2 =
      stGen ∧
    (AircraftService.set_aircraft_id stGen "FL100" "AC1").2 = stAssigned ∧
    AircraftService.update_passengers stAssigned "AC1" (-1) =
      (.ok aNeg, { stAssigned with flights := [("FL100", aNeg)] }) ∧
    aNeg.actual_passengers < 0 :=
  ⟨rfl, rfl, rfl, by decide⟩

/-- C3 (amended): creation establishes `0 ≤ actual ≤ capacity` for all four
resources (under the `randint(0, capacity)` contract); each setter enforces
only the upper bound — success stores exactly the requested value, which
does not exceed the unchanged capacity, and a request above capacity is
rejected with the prior value intact — so the lower bound is not preserved
by mutation. -/
theorem capacity_bounds_spec :
    (∀ (m fid : String) (c : Aircraft) (rp rb rw rf : Int),
      0 ≤ rp → rp ≤ c.passenger_capacity →
      0 ≤ rb → rb ≤ c.baggage_capacity_kg →
      0 ≤ rw → rw ≤ c.water_capacity →
      0 ≤ rf → rf ≤ c.fuel_capacity →
      (0 ≤ (builtInstance m fid c rp rb rw rf).actual_passengers ∧
        (builtInstance m fid c rp rb rw rf).actual_passengers ≤
          (builtInstance m fid c rp rb rw rf).passenger_capacity) ∧
      (0 ≤ (builtInstance m fid c rp rb rw rf).actual_baggage_kg ∧
        (builtInstance m fid c rp rb rw rf).actual_baggage_kg ≤
          (builtInstance m fid c rp rb rw rf).baggage_capacity_kg) ∧
      (0 ≤ (builtInstance m fid c rp rb rw rf).actual_water_kg ∧
        (builtInstance m fid c rp rb rw rf).actual_water_kg ≤
          (builtInstance m fid c rp rb rw rf).water_capacity) ∧
      (0 ≤ (builtInstance m fid c rp rb rw rf).actual_fuel_kg ∧
        (builtInstance m fid c rp rb rw rf).actual_fuel_kg ≤
          (builtInstance m fid c rp rb rw rf).fuel_capacity)) ∧
    (∀ (a : AircraftInstance) (c : Int) (b : AircraftInstance),
      a.update_passengers c = .ok b →
      b.actual_passengers = c ∧ c ≤ a.passenger_capacity ∧
        b.passenger_capacity = a.passenger_capacity) ∧
    (∀ (a : AircraftInstance) (c : Int), a.passenger_capacity < c →
      a.update_passengers c = .error "passenger count exceeds capacity") ∧
    (∀ (a : AircraftInstance) (c : Int) (b : AircraftInstance),
      a.update_baggage c = .ok b →
      b.actual_baggage_kg = c ∧ c ≤ a.baggage_capacity_kg ∧
        b.baggage_capacity_kg = a.baggage_capacity_kg) ∧
    (∀ (a : AircraftInstance) (c : Int), a.baggage_capacity_kg < c →
      a.update_baggage c = .error "baggage weight exceeds capacity") ∧
    (∀ (a : AircraftInstance) (c : Int) (b : AircraftInstance),
      a.update_water c = .ok b →
      b.actual_water_kg = c ∧ c ≤ a.water_capacity ∧
        b.water_capacity = a.water_capacity) ∧
    (∀ (a : AircraftInstance) (c : Int), a.water_capacity < c →
      a.update_water c = .error "water weight exceeds capacity") ∧
    (∀ (a : AircraftInstance) (c : Int) (b : AircraftInstance),
      a.update_fuel c = .ok b →
      b.actual_fuel_kg = c ∧ c ≤ a.fuel_capacity ∧
        b.fuel_capacity = a.fuel_capacity) ∧
    (∀ (a : AircraftInstance) (c : Int), a.fuel_capacity < c →
      a.update_fuel c = .error "fuel weight exceeds capacity") := by
  refine ⟨?_, ?_, ?_, ?_, ?_, ?_, ?_, ?_, ?_⟩
  · intro m fid c rp rb rw rf h1 h2 h3 h4 h5 h6 h7 h8
    exact ⟨⟨h1, h2⟩, ⟨h3, h4⟩, ⟨h5, h6⟩, ⟨h7, h8⟩⟩
  · intro a c b hb
    by_cases h : a.passenger_capacity < c
    · simp [AircraftInstance.update_passengers, h] at hb
    · simp only [AircraftInstance.update_passengers, if_neg h, Except.ok.injEq] at hb
      subst hb
      exact ⟨rfl, not_lt.mp h, rfl⟩
  · intro a c h
    simp [AircraftInstance.update_passengers, h]
  · intro a c b hb
    by_cases h : a.baggage_capacity_kg < c
    · simp [AircraftInstance.update_baggage, h] at hb
    · simp only [AircraftInstance.update_baggage, if_neg h, Except.ok.injEq] at hb
      subst hb
      exact ⟨rfl, not_lt.mp h, rfl⟩
  · intro a c h
    simp [AircraftInstance.update_baggage, h]
  · intro a c b hb
    by_cases h : a.water_capacity < c
    · simp [AircraftInstance.update_water, h] at hb
    · simp only [AircraftInstance.update_water, if_neg h, Except.ok.injEq] at hb
      subst hb
      exact ⟨rfl, not_lt.mp h, rfl⟩
  · intro a c h
    simp [AircraftInstance.update_water, h]
  · intro a c b hb
    by_cases h : a.fuel_capacity < c
    · simp [AircraftInstance.update_fuel, h] at hb
    · simp only [AircraftInstance.update_fuel, if_neg h, Except.ok.injEq] at hb
      subst hb
      exact ⟨rfl, not_lt.mp h, rfl⟩
  · intro a c h
    simp [AircraftInstance.update_fuel, h]

/-- Witness for C3 (amended): creation bounds at the `A320` entry with all
draws 5, and a successful / rejected passenger mutation on that instance. -/
theorem capacity_bounds_spec_witness :
    ((0 ≤ aGen.actual_passengers ∧
        aGen.actual_passengers ≤ aGen.passenger_capacity) ∧
      (0 ≤ aGen.actual_baggage_kg ∧
        aGen.actual_baggage_kg ≤ aGen.baggage_capacity_kg) ∧
      (0 ≤ aGen.actual_water_kg ∧
        aGen.actual_water_kg ≤ aGen.water_capacity) ∧
      (0 ≤ aGen.actual_fuel_kg ∧
        aGen.actual_fuel_kg ≤ aGen.fuel_capacity)) ∧
    aGen.update_passengers 200 = .error "passenger count exceeds capacity" :=
  ⟨capacity_bounds_spec.1 "A320" "FL100" a320 5 5 5 5 (by decide) (by decide)
      (by decide) (by decide) (by decide) (by decide) (by decide) (by decide),
   capacity_bounds_spec.2.2.1 aGen 200 (by decide)⟩

/-! ## C4 — error propagation during landing -/

/-- C4 counterexample: the claim says the Conflict from identifier
assignment is re-raised unchanged.  The landing route's handler is
`except Exception`, which also catches `HTTPException`, so the 400 conflict
raised by `set_aircraft_id` surfaces as a generic 500 wrapping the original
message. -/
theorem landing_wraps_conflict_into_500 :
    AircraftService.set_aircraft_id stAssigned "FL100" "AC1" =
      (.error (.http 400 (conflictDetail "AC1")), stAssigned) ∧
    landing_aircraft stAssigned "FL100"
        (.ok { vehicleId := some "AC1", garrageNodeId := some "N7" })
        (.ok "ack") =
      (.error (.http 500 ("error during aircraft landing: " ++
          (Err.http 400 (conflictDetail "AC1")).msg)),
       stAssigned) :=
  ⟨rfl, rfl⟩

/-- C4 (amended): the NotFound from the initial instance lookup is raised
before the wrapping handler and reaches the caller unchanged; every
exception raised inside the landing sequence — the incomplete-response
BadGateway and any error from identifier assignment, the Conflict included —
is caught by the generic handler and wrapped into a 500 internal failure
carrying the original message. -/
theorem landing_error_wrapping_spec (st : Store) (fid : String)
    (gc : Except String GCResp) (orch : Except String String) :
    (KV.get st.flights fid = none →
      landing_aircraft st fid gc orch =
        (.error (.http 404 (flightNotFoundDetail fid)), st)) ∧
    (∀ a resp, KV.get st.flights fid = some a → gc = .ok resp →
      (falsyOpt resp.vehicleId || falsyOpt resp.garrageNodeId) = true →
      landing_aircraft st fid gc orch =
        (.error (.http 500 ("error during aircraft landing: " ++
            (Err.http 502 "ground control returned incomplete data").msg)),
         st)) ∧
    (∀ a resp vid nid e st1, KV.get st.flights fid = some a →
      gc = .ok resp → resp.vehicleId = some vid → vid ≠ "" →
      resp.garrageNodeId = some nid → nid ≠ "" →
      AircraftService.set_aircraft_id st fid vid = (.error e, st1) →
      landing_aircraft st fid gc orch =
        (.error (.http 500 ("error during aircraft landing: " ++ e.msg)), st1)) := by
  refine ⟨?_, ?_, ?_⟩
  · intro h
    simp [landing_aircraft, AircraftService.get_by_flight_id, h]
  · intro a resp ha hgc hfal
    subst hgc
    simp [landing_aircraft, AircraftService.get_by_flight_id, ha, hfal,
          wrapLanding]
  · intro a resp vid nid e st1 ha hgc hv hve hn hne hset
    subst hgc
    have hfv : falsyOpt (some vid) = false := by simp [falsyOpt, hve]
    have hfn : falsyOpt (some nid) = false := by simp [falsyOpt, hne]
    simp [landing_aircraft, AircraftService.get_by_flight_id, ha, hv, hn,
          hfv, hfn, hset, wrapLanding]

/-- Witness for C4: on the empty store the landing lookup fails and the 404
propagates unchanged (no 500 wrapping). -/
theorem landing_error_wrapping_spec_witness :
    landing_aircraft st0 "FL100"
        (.ok { vehicleId := some "AC1", garrageNodeId := some "N7" })
        (.ok "ack") =
      (.error (.http 404 (flightNotFoundDetail "FL100")), st0) :=
  (landing_error_wrapping_spec st0 "FL100"
      (.ok { vehicleId := some "AC1", garrageNodeId := some "N7" })
      (.ok "ack")).1 rfl
